import Mathlib

/-!
Verification development for `gardin_api_query_example.py`, a small HTTP client
that authenticates against an OAuth2 token endpoint, submits a query job,
polls the job status on a fixed interval, and downloads the finished result
to a timestamped CSV file.

The HTTP network is modelled as an oracle: each operation receives the
`Response` the remote endpoint would return (status code, reason phrase, and
the parsed JSON body restricted to the string fields the program reads).
The polling loop consumes a list of such responses, one per poll; side
effects (prints, sleeps, file writes, outgoing requests) are recorded in
explicit traces.
-/

namespace GardinApi

/-- A parsed JSON object body: the string-valued fields the program reads via
`json.loads(response.text).get(...)`. -/
abbrev JsonBody := List (String × String)

/-- Python `dict.get(key, dflt)` on a parsed JSON body. -/
def jsonGet (body : JsonBody) (key dflt : String) : String :=
  match body.lookup key with
  | some v => v
  | none => dflt

/-- An HTTP response as the `requests` library hands it to the program:
numeric status code, reason phrase, and the parsed JSON body. -/
structure Response where
  status_code : Nat
  reason : String
  body : JsonBody
deriving DecidableEq

/-- `requests.Response.ok`, the attribute line 47 tests: `True` iff
`status_code` is less than 400 (the documented semantics of the `requests`
library). -/
def Response.ok (r : Response) : Bool := r.status_code < 400

/-- Line 33: `QUERY_STATUS_POLLING_WAIT_SECS = 10`. -/
def QUERY_STATUS_POLLING_WAIT_SECS : Nat := 10

/-- Line 34: `CSV_DOWNLOAD_PATH_PREFIX = 'gardin_query_api_results_'`. -/
def CSV_DOWNLOAD_PATH_PREFIX : String := "gardin_query_api_results_"

/-- An observable side effect of the program: a printed line or a
`sleep(secs)` call. -/
inductive Event where
  | print (line : String)
  | sleep (secs : Nat)
deriving DecidableEq

/-- The durations of the `sleep` calls in a trace, in order. -/
def sleepDurations : List Event → List Nat
  | [] => []
  | Event.sleep n :: es => n :: sleepDurations es
  | Event.print _ :: es => sleepDurations es

/-- `check_api_response` (lines 36-49): prints the status line, and on a
not-ok response prints the reason and raises
`RuntimeError("API request failed: <reason>")`, modelled as `some msg`. -/
def check_api_response (resp : Response) (action : String) : List Event × Option String :=
  if resp.ok then
    ([Event.print (action ++ " - Response Status " ++ toString resp.status_code)], none)
  else
    ([Event.print (action ++ " - Response Status " ++ toString resp.status_code),
      Event.print ("Request Response Error Code " ++ resp.reason)],
     some ("API request failed: " ++ resp.reason))

/-- `get_auth_token` (lines 51-70), given the token endpoint's response:
on a not-ok response the `RuntimeError` from `check_api_response` propagates;
otherwise the token is `.get('access_token', '')` of the body. -/
def get_auth_token (resp : Response) : List Event × Except String String :=
  match check_api_response resp "Get Authentication token" with
  | (evs, some e) => (evs, Except.error e)
  | (evs, none) => (evs, Except.ok (jsonGet resp.body "access_token" ""))

/-- `submit_query` (lines 72-98), given the submit endpoint's response:
on a not-ok response the `RuntimeError` propagates; otherwise the query id is
`.get('queryId', '')` of the body. -/
def submit_query (resp : Response) : List Event × Except String String :=
  match check_api_response resp "Execute Query" with
  | (evs, some e) => (evs, Except.error e)
  | (evs, none) => (evs, Except.ok (jsonGet resp.body "queryId" ""))

/-- `download_results` (lines 133-146), given the result-location endpoint's
response: on a not-ok response the `RuntimeError` propagates; otherwise the
signed URI is `.get('uri', '')` of the body. -/
def download_results (resp : Response) : List Event × Except String String :=
  match check_api_response resp "Get URI for csv file" with
  | (evs, some e) => (evs, Except.error e)
  | (evs, none) => (evs, Except.ok (jsonGet resp.body "uri" ""))

/-- Line 117: the pending statuses `['SUBMITTED', 'IN_PROGRESS', 'RUNNING']`. -/
def isPendingStatus (s : String) : Bool :=
  s == "SUBMITTED" || s == "IN_PROGRESS" || s == "RUNNING"

/-- Line 115: the status of a poll response,
`json.loads(response.text).get('status', 'NO_STATUS_RETURNED')`. -/
def statusOf (resp : Response) : String :=
  jsonGet resp.body "status" "NO_STATUS_RETURNED"

/-- How one run of `monitor_query_status` ends: the function returned a
boolean, a `RuntimeError` escaped it, or the supplied response oracle was
exhausted while the loop was still going (the loop itself is unbounded). -/
inductive MonitorOutcome where
  | returned (success : Bool)
  | raised (msg : String)
  | exhausted
deriving DecidableEq

/-- A run of the polling loop: its outcome, its trace of prints and sleeps,
and the number of status GET requests it performed. -/
structure MonitorRun where
  outcome : MonitorOutcome
  events : List Event
  calls : Nat
deriving DecidableEq

/-- `monitor_query_status` (lines 100-131): the `while True` polling loop,
consuming one oracle response per iteration. Each iteration performs the
status GET, runs `check_api_response` (whose `RuntimeError` aborts the loop),
then branches on the status: pending sleeps
`QUERY_STATUS_POLLING_WAIT_SECS` and loops; `COMPLETED` returns `True`;
`FAILED`/`CANCELLED` return `False`; anything else prints the unknown-status
line and returns `False`. -/
def monitor_query_status : List Response → MonitorRun
  | [] => { outcome := MonitorOutcome.exhausted, events := [], calls := 0 }
  | resp :: rest =>
    match check_api_response resp "Get Processing status" with
    | (evs, some e) =>
      { outcome := MonitorOutcome.raised e, events := evs, calls := 1 }
    | (evs, none) =>
      let status := statusOf resp
      if isPendingStatus status then
        let run := monitor_query_status rest
        { outcome := run.outcome,
          events := evs ++
            Event.print ("Waiting " ++ toString QUERY_STATUS_POLLING_WAIT_SECS ++
              " seconds for query to complete - Current Status: " ++ status) ::
            Event.sleep QUERY_STATUS_POLLING_WAIT_SECS :: run.events,
          calls := run.calls + 1 }
      else if status == "COMPLETED" then
        { outcome := MonitorOutcome.returned true,
          events := evs ++ [Event.print ("Query completed with status: " ++ status)],
          calls := 1 }
      else if status == "FAILED" || status == "CANCELLED" then
        { outcome := MonitorOutcome.returned false,
          events := evs ++ [Event.print ("Query failed with status: " ++ status)],
          calls := 1 }
      else
        { outcome := MonitorOutcome.returned false,
          events := evs ++ [Event.print ("Error:Unknown status -" ++ status)],
          calls := 1 }

/-! ### Base64 and the Basic-Auth header (lines 59-64)

`base64.b64encode` / `base64.b64decode` of the Python standard library,
standard RFC 4648 base64 over byte sequences (bytes are `Nat`s below 256).
The client id and secret are modelled as their UTF-8 byte sequences, so the
Python `f"{CLIENT_ID}:{CLIENT_SECRET}".encode('utf-8')` of lines 59-60 is
concatenation with the colon byte 58 in between. -/

/-- The base64 alphabet, in value order. -/
def b64Alphabet : List Char :=
  ("ABCDEFGHIJKLMNOPQRSTUVWXYZabcdefghijklmnopqrstuvwxyz0123456789+/").toList

/-- The base64 character of a 6-bit value. -/
def b64EncChar (n : Nat) : Char := b64Alphabet.getD n 'A'

/-- The 6-bit value of a base64 character. -/
def b64DecVal (c : Char) : Nat := b64Alphabet.indexOf c

/-- `base64.b64encode` on a byte sequence, producing the padded character
sequence: three bytes become four characters, a trailing group of one or two
bytes is padded with `=`. -/
def base64EncodeBytes : List Nat → List Char
  | [] => []
  | [a] =>
    [b64EncChar (a / 4), b64EncChar (a % 4 * 16), '=', '=']
  | [a, b] =>
    [b64EncChar (a / 4), b64EncChar (a % 4 * 16 + b / 16), b64EncChar (b % 16 * 4), '=']
  | a :: b :: c :: rest =>
    b64EncChar (a / 4) ::
    b64EncChar (a % 4 * 16 + b / 16) ::
    b64EncChar (b % 16 * 4 + c / 64) ::
    b64EncChar (c % 64) ::
    base64EncodeBytes rest

/-- `base64.b64decode` on a padded base64 character sequence. -/
def base64DecodeBytes : List Char → List Nat
  | c1 :: c2 :: c3 :: c4 :: rest =>
    if c3 = '=' then
      [b64DecVal c1 * 4 + b64DecVal c2 / 16]
    else if c4 = '=' then
      [b64DecVal c1 * 4 + b64DecVal c2 / 16,
       b64DecVal c2 % 16 * 16 + b64DecVal c3 / 4]
    else
      (b64DecVal c1 * 4 + b64DecVal c2 / 16) ::
      (b64DecVal c2 % 16 * 16 + b64DecVal c3 / 4) ::
      (b64DecVal c3 % 4 * 64 + b64DecVal c4) ::
      base64DecodeBytes rest
  | _ => []

/-- Line 59: `credentials = f"{CLIENT_ID}:{CLIENT_SECRET}"`, as UTF-8 bytes;
58 is the byte of the colon. -/
def credentialsBytes (client_id client_secret : List Nat) : List Nat :=
  client_id ++ 58 :: client_secret

/-- Lines 60-64: the value of the `Authorization` header,
`f'Basic {encoded_credentials}'`. -/
def basicAuthHeader (client_id client_secret : List Nat) : List Char :=
  ("Basic ").toList ++ base64EncodeBytes (credentialsBytes client_id client_secret)

/-! ### The downloader and the orchestrator (lines 148-191) -/

/-- An outgoing request or file write performed by the orchestrated run.
`rawGet` is a GET that sends no headers at all (line 157 passes none), and
`fileWrite` records the file name and the exact bytes written. -/
inductive Action where
  | tokenCall
  | submitCall
  | statusCall
  | downloadUriCall
  | rawGet (uri : String)
  | fileWrite (filename : String) (contents : List Nat)
deriving DecidableEq

/-- `save_results` (lines 148-160): builds the filename
`f"{CSV_DOWNLOAD_PATH_PREFIX}{int(time())}.csv"`, performs the
unauthenticated `requests.get(signed_uri)`, and writes `response.content`
verbatim. `content` is the body of that GET and `now` is `int(time())`. -/
def save_results (signed_uri : String) (content : List Nat) (now : Nat) : List Action :=
  [Action.rawGet signed_uri,
   Action.fileWrite (CSV_DOWNLOAD_PATH_PREFIX ++ toString now ++ ".csv") content]

/-- The oracle environment of one orchestrated run: the responses each
endpoint returns (`statusResps` one per poll), the bytes the signed URI
serves, and the clock value at save time. -/
structure Env where
  tokenResp : Response
  submitResp : Response
  statusResps : List Response
  downloadResp : Response
  csvContent : List Nat
  saveTime : Nat
deriving DecidableEq

/-- How `main` ends: it ran to the end (with or without a download — the
trace tells which), a `RuntimeError` escaped to the top level, or the status
oracle was exhausted while the loop was still polling. -/
inductive MainOutcome where
  | finished
  | raised (msg : String)
  | stillPolling
deriving DecidableEq

/-- A run of `main`: its outcome and the requests and file writes it made. -/
structure MainRun where
  outcome : MainOutcome
  trace : List Action
deriving DecidableEq

/-- `main` (lines 162-191): authenticate, submit, poll; only when the poll
reports success, fetch the signed URI and save the file. An uncaught
`RuntimeError` in any step skips every later step. -/
def main (env : Env) : MainRun :=
  match (get_auth_token env.tokenResp).2 with
  | Except.error e => { outcome := MainOutcome.raised e, trace := [Action.tokenCall] }
  | Except.ok _token =>
    match (submit_query env.submitResp).2 with
    | Except.error e =>
      { outcome := MainOutcome.raised e, trace := [Action.tokenCall, Action.submitCall] }
    | Except.ok _query_id =>
      let run := monitor_query_status env.statusResps
      let pre := Action.tokenCall :: Action.submitCall ::
        List.replicate run.calls Action.statusCall
      match run.outcome with
      | MonitorOutcome.raised e => { outcome := MainOutcome.raised e, trace := pre }
      | MonitorOutcome.exhausted => { outcome := MainOutcome.stillPolling, trace := pre }
      | MonitorOutcome.returned false => { outcome := MainOutcome.finished, trace := pre }
      | MonitorOutcome.returned true =>
        match (download_results env.downloadResp).2 with
        | Except.error e =>
          { outcome := MainOutcome.raised e, trace := pre ++ [Action.downloadUriCall] }
        | Except.ok signed_uri =>
          { outcome := MainOutcome.finished,
            trace := pre ++ Action.downloadUriCall ::
              save_results signed_uri env.csvContent env.saveTime }

/-! ### Concrete fixtures used by witnesses and counterexamples -/

/-- A 200 OK response whose body carries the given status field. -/
def statusResp (s : String) : Response :=
  { status_code := 200, reason := "OK", body := [("status", s)] }

/-- A 200 OK response with an empty JSON body. -/
def emptyBodyResp : Response :=
  { status_code := 200, reason := "OK", body := [] }

/-- A 302 redirect response that nevertheless carries a token field. -/
def redirectTokenResp : Response :=
  { status_code := 302, reason := "Found", body := [("access_token", "tok")] }

/-- An environment whose token endpoint answers 302 and everything else
succeeds. -/
def redirectEnv : Env :=
  { tokenResp := redirectTokenResp,
    submitResp := { status_code := 200, reason := "OK", body := [("queryId", "abc123")] },
    statusResps := [statusResp "COMPLETED"],
    downloadResp := { status_code := 200, reason := "OK", body := [("uri", "https://signed/abc123.csv")] },
    csvContent := [104, 105],
    saveTime := 1700000000 }

/-- A 500 response, as a status endpoint could return it. -/
def errResp : Response :=
  { status_code := 500, reason := "Internal Server Error", body := [] }

/-- An environment whose query ends in status `FAILED`. -/
def failedEnv : Env :=
  { tokenResp := { status_code := 200, reason := "OK", body := [("access_token", "tok")] },
    submitResp := { status_code := 200, reason := "OK", body := [("queryId", "abc123")] },
    statusResps := [statusResp "SUBMITTED", statusResp "FAILED"],
    downloadResp := { status_code := 200, reason := "OK", body := [("uri", "https://signed/abc123.csv")] },
    csvContent := [104, 105],
    saveTime := 1700000000 }

/-- The end-to-end scenario of the spec: valid token, queryId `abc123`,
statuses `IN_PROGRESS` then `COMPLETED`, signed URI
`https://signed/abc123.csv`. -/
def happyEnv : Env :=
  { tokenResp := { status_code := 200, reason := "OK", body := [("access_token", "tok")] },
    submitResp := { status_code := 200, reason := "OK", body := [("queryId", "abc123")] },
    statusResps := [statusResp "IN_PROGRESS", statusResp "COMPLETED"],
    downloadResp := { status_code := 200, reason := "OK", body := [("uri", "https://signed/abc123.csv")] },
    csvContent := [104, 105],
    saveTime := 1700000000 }

/-! ## Helper lemmas -/

theorem b64DecVal_encChar : ∀ n, n < 64 → b64DecVal (b64EncChar n) = n := by decide

theorem b64EncChar_ne_pad : ∀ n, n < 64 → b64EncChar n ≠ '=' := by decide

theorem base64_roundtrip : ∀ bs : List Nat, (∀ b ∈ bs, b < 256) →
    base64DecodeBytes (base64EncodeBytes bs) = bs := by
  intro bs
  induction bs using base64EncodeBytes.induct with
  | case1 =>
    intro _
    rfl
  | case2 a =>
    intro h
    have ha : a < 256 := h a (by simp)
    simp only [base64EncodeBytes, base64DecodeBytes, if_true]
    rw [b64DecVal_encChar _ (by omega), b64DecVal_encChar _ (by omega)]
    simp only [List.cons.injEq, and_true]
    omega
  | case3 a b =>
    intro h
    have ha : a < 256 := h a (by simp)
    have hb : b < 256 := h b (by simp)
    simp only [base64EncodeBytes, base64DecodeBytes, if_true]
    rw [if_neg (b64EncChar_ne_pad _ (by omega)),
      b64DecVal_encChar _ (by omega), b64DecVal_encChar _ (by omega),
      b64DecVal_encChar _ (by omega)]
    simp only [List.cons.injEq, and_true]
    constructor <;> omega
  | case4 a b c rest ih =>
    intro h
    have ha : a < 256 := h a (by simp)
    have hb : b < 256 := h b (by simp)
    have hc : c < 256 := h c (by simp)
    simp only [base64EncodeBytes, base64DecodeBytes]
    rw [if_neg (b64EncChar_ne_pad _ (by omega)), if_neg (b64EncChar_ne_pad _ (by omega)),
      b64DecVal_encChar _ (by omega), b64DecVal_encChar _ (by omega),
      b64DecVal_encChar _ (by omega), b64DecVal_encChar _ (by omega)]
    simp only [List.cons.injEq]
    refine ⟨by omega, by omega, by omega, ih ?_⟩
    intro x hx
    exact h x (by simp [hx])

theorem ok_eq_false_iff (r : Response) : r.ok = false ↔ 400 ≤ r.status_code := by
  simp [Response.ok]

theorem ok_eq_true_iff (r : Response) : r.ok = true ↔ r.status_code < 400 := by
  simp [Response.ok]

theorem sleepDurations_append (xs ys : List Event) :
    sleepDurations (xs ++ ys) = sleepDurations xs ++ sleepDurations ys := by
  induction xs with
  | nil => rfl
  | cons e es ih => cases e <;> simp [sleepDurations, ih]

theorem get_auth_token_of_ok (r : Response) (h : r.ok = true) :
    (get_auth_token r).2 = Except.ok (jsonGet r.body "access_token" "") := by
  simp [get_auth_token, check_api_response, h]

theorem get_auth_token_of_notok (r : Response) (h : r.ok = false) :
    (get_auth_token r).2 = Except.error ("API request failed: " ++ r.reason) := by
  simp [get_auth_token, check_api_response, h]

theorem submit_query_of_ok (r : Response) (h : r.ok = true) :
    (submit_query r).2 = Except.ok (jsonGet r.body "queryId" "") := by
  simp [submit_query, check_api_response, h]

theorem submit_query_of_notok (r : Response) (h : r.ok = false) :
    (submit_query r).2 = Except.error ("API request failed: " ++ r.reason) := by
  simp [submit_query, check_api_response, h]

theorem download_results_of_ok (r : Response) (h : r.ok = true) :
    (download_results r).2 = Except.ok (jsonGet r.body "uri" "") := by
  simp [download_results, check_api_response, h]

theorem download_results_of_notok (r : Response) (h : r.ok = false) :
    (download_results r).2 = Except.error ("API request failed: " ++ r.reason) := by
  simp [download_results, check_api_response, h]

theorem monitor_cons_notok (r : Response) (rest : List Response) (h : r.ok = false) :
    monitor_query_status (r :: rest) =
      { outcome := MonitorOutcome.raised ("API request failed: " ++ r.reason),
        events := [Event.print ("Get Processing status - Response Status " ++
            toString r.status_code),
          Event.print ("Request Response Error Code " ++ r.reason)],
        calls := 1 } := by
  simp [monitor_query_status, check_api_response, h]

theorem monitor_cons_pending (r : Response) (rest : List Response)
    (hok : r.ok = true) (hp : isPendingStatus (statusOf r) = true) :
    monitor_query_status (r :: rest) =
      { outcome := (monitor_query_status rest).outcome,
        events := Event.print ("Get Processing status - Response Status " ++
            toString r.status_code) ::
          Event.print ("Waiting " ++ toString QUERY_STATUS_POLLING_WAIT_SECS ++
            " seconds for query to complete - Current Status: " ++ statusOf r) ::
          Event.sleep QUERY_STATUS_POLLING_WAIT_SECS ::
          (monitor_query_status rest).events,
        calls := (monitor_query_status rest).calls + 1 } := by
  simp [monitor_query_status, check_api_response, hok, hp]

theorem monitor_cons_completed (r : Response) (rest : List Response)
    (hok : r.ok = true) (hc : statusOf r = "COMPLETED") :
    monitor_query_status (r :: rest) =
      { outcome := MonitorOutcome.returned true,
        events := [Event.print ("Get Processing status - Response Status " ++
            toString r.status_code),
          Event.print ("Query completed with status: COMPLETED")],
        calls := 1 } := by
  simp [monitor_query_status, check_api_response, isPendingStatus, hok, hc]

theorem monitor_cons_failed (r : Response) (rest : List Response)
    (hok : r.ok = true) (hc : statusOf r = "FAILED" ∨ statusOf r = "CANCELLED") :
    monitor_query_status (r :: rest) =
      { outcome := MonitorOutcome.returned false,
        events := [Event.print ("Get Processing status - Response Status " ++
            toString r.status_code),
          Event.print ("Query failed with status: " ++ statusOf r)],
        calls := 1 } := by
  rcases hc with hc | hc <;>
    simp [monitor_query_status, check_api_response, isPendingStatus, hok, hc]

theorem monitor_cons_unknown (r : Response) (rest : List Response)
    (hok : r.ok = true)
    (hn : statusOf r ∉ (["SUBMITTED", "IN_PROGRESS", "RUNNING",
      "COMPLETED", "FAILED", "CANCELLED"] : List String)) :
    monitor_query_status (r :: rest) =
      { outcome := MonitorOutcome.returned false,
        events := [Event.print ("Get Processing status - Response Status " ++
            toString r.status_code),
          Event.print ("Error:Unknown status -" ++ statusOf r)],
        calls := 1 } := by
  simp only [List.mem_cons, List.not_mem_nil, or_false, not_or] at hn
  obtain ⟨h1, h2, h3, h4, h5, h6⟩ := hn
  simp [monitor_query_status, check_api_response, isPendingStatus, hok,
    h1, h2, h3, h4, h5, h6]

theorem monitor_all_pending (resps : List Response)
    (h : ∀ r ∈ resps, r.ok = true ∧ isPendingStatus (statusOf r) = true) :
    monitor_query_status resps =
      { outcome := MonitorOutcome.exhausted,
        events := (resps.map (fun r =>
          [Event.print ("Get Processing status - Response Status " ++
              toString r.status_code),
            Event.print ("Waiting " ++ toString QUERY_STATUS_POLLING_WAIT_SECS ++
              " seconds for query to complete - Current Status: " ++ statusOf r),
            Event.sleep QUERY_STATUS_POLLING_WAIT_SECS])).flatten,
        calls := resps.length } := by
  induction resps with
  | nil => rfl
  | cons r rest ih =>
    have hr := h r (by simp)
    rw [monitor_cons_pending r rest hr.1 hr.2,
      ih (fun p hp => h p (by simp [hp]))]
    simp

theorem monitor_exhausted_iff (resps : List Response) :
    (monitor_query_status resps).outcome = MonitorOutcome.exhausted ↔
      ∀ r ∈ resps, r.ok = true ∧ isPendingStatus (statusOf r) = true := by
  constructor
  · induction resps with
    | nil => intro _; simp
    | cons r rest ih =>
      intro h
      by_cases hok : r.ok = true
      · by_cases hp : isPendingStatus (statusOf r) = true
        · rw [monitor_cons_pending r rest hok hp] at h
          intro p hp2
          rcases List.mem_cons.mp hp2 with rfl | hmem
          · exact ⟨hok, hp⟩
          · exact ih h p hmem
        · exfalso
          by_cases hc : statusOf r = "COMPLETED"
          · rw [monitor_cons_completed r rest hok hc] at h
            exact MonitorOutcome.noConfusion h
          · by_cases hf : statusOf r = "FAILED" ∨ statusOf r = "CANCELLED"
            · rw [monitor_cons_failed r rest hok hf] at h
              exact MonitorOutcome.noConfusion h
            · have hn : statusOf r ∉ (["SUBMITTED", "IN_PROGRESS", "RUNNING",
                  "COMPLETED", "FAILED", "CANCELLED"] : List String) := by
                simp only [List.mem_cons, List.not_mem_nil, or_false, not_or]
                refine ⟨?_, ?_, ?_, hc, fun h => hf (Or.inl h), fun h => hf (Or.inr h)⟩ <;>
                  (intro he; exact hp (by simp [isPendingStatus, he]))
              rw [monitor_cons_unknown r rest hok hn] at h
              exact MonitorOutcome.noConfusion h
      · rw [monitor_cons_notok r rest (by simpa using hok)] at h
        exact MonitorOutcome.noConfusion h
  · intro h
    rw [monitor_all_pending resps h]

theorem status_not_pending_cases (r : Response)
    (hp : isPendingStatus (statusOf r) = false)
    (hc : statusOf r ≠ "COMPLETED")
    (hf : ¬(statusOf r = "FAILED" ∨ statusOf r = "CANCELLED")) :
    statusOf r ∉ (["SUBMITTED", "IN_PROGRESS", "RUNNING",
      "COMPLETED", "FAILED", "CANCELLED"] : List String) := by
  simp only [List.mem_cons, List.not_mem_nil, or_false, not_or]
  refine ⟨?_, ?_, ?_, hc, fun h => hf (Or.inl h), fun h => hf (Or.inr h)⟩ <;>
    (intro he; rw [isPendingStatus, he] at hp; simp at hp)

theorem monitor_cons_terminal (r : Response) (rest : List Response)
    (hok : r.ok = true) (hp : isPendingStatus (statusOf r) = false) :
    ∃ b, (monitor_query_status (r :: rest)).outcome = MonitorOutcome.returned b ∧
      (monitor_query_status (r :: rest)).calls = 1 ∧
      sleepDurations (monitor_query_status (r :: rest)).events = [] := by
  by_cases hc : statusOf r = "COMPLETED"
  · rw [monitor_cons_completed r rest hok hc]
    exact ⟨true, rfl, rfl, rfl⟩
  · by_cases hf : statusOf r = "FAILED" ∨ statusOf r = "CANCELLED"
    · rw [monitor_cons_failed r rest hok hf]
      exact ⟨false, rfl, rfl, rfl⟩
    · rw [monitor_cons_unknown r rest hok (status_not_pending_cases r hp hc hf)]
      exact ⟨false, rfl, rfl, rfl⟩

theorem monitor_all_pending_sleeps (resps : List Response)
    (h : ∀ r ∈ resps, r.ok = true ∧ isPendingStatus (statusOf r) = true) :
    sleepDurations (monitor_query_status resps).events =
      List.replicate resps.length QUERY_STATUS_POLLING_WAIT_SECS := by
  induction resps with
  | nil => rfl
  | cons r rest ih =>
    have hr := h r (by simp)
    rw [monitor_cons_pending r rest hr.1 hr.2]
    simp [sleepDurations, ih (fun p hp => h p (by simp [hp])), List.replicate_succ]

/-! ## Claim theorems -/

/-- Claim C1: the status poller is the described state machine. On each poll
it reads the job status; on a pending status (`SUBMITTED`, `IN_PROGRESS`,
`RUNNING`) it sleeps the fixed 10-second interval
(`QUERY_STATUS_POLLING_WAIT_SECS = 10`) and polls again; on a terminal
status it stops after that single check and returns a boolean, with
`COMPLETED` returning success. On the status sequence
`["SUBMITTED", "RUNNING", "COMPLETED"]` it sleeps exactly twice, ten seconds
each time, and returns `true` after the third check. -/
theorem monitor_is_described_state_machine :
    (∀ r rest, r.ok = true → isPendingStatus (statusOf r) = true →
      (monitor_query_status (r :: rest)).outcome = (monitor_query_status rest).outcome ∧
      sleepDurations (monitor_query_status (r :: rest)).events =
        QUERY_STATUS_POLLING_WAIT_SECS :: sleepDurations (monitor_query_status rest).events ∧
      (monitor_query_status (r :: rest)).calls = (monitor_query_status rest).calls + 1) ∧
    (∀ r rest, r.ok = true → isPendingStatus (statusOf r) = false →
      ∃ b, (monitor_query_status (r :: rest)).outcome = MonitorOutcome.returned b ∧
        (monitor_query_status (r :: rest)).calls = 1 ∧
        sleepDurations (monitor_query_status (r :: rest)).events = []) ∧
    (∀ r rest, r.ok = true → statusOf r = "COMPLETED" →
      (monitor_query_status (r :: rest)).outcome = MonitorOutcome.returned true) ∧
    QUERY_STATUS_POLLING_WAIT_SECS = 10 ∧
    (monitor_query_status
      [statusResp "SUBMITTED", statusResp "RUNNING", statusResp "COMPLETED"]).outcome =
      MonitorOutcome.returned true ∧
    sleepDurations (monitor_query_status
      [statusResp "SUBMITTED", statusResp "RUNNING", statusResp "COMPLETED"]).events =
      [10, 10] ∧
    (monitor_query_status
      [statusResp "SUBMITTED", statusResp "RUNNING", statusResp "COMPLETED"]).calls = 3 := by
  refine ⟨?_, ?_, ?_, rfl, by decide, by decide, by decide⟩
  · intro r rest hok hp
    rw [monitor_cons_pending r rest hok hp]
    exact ⟨rfl, rfl, rfl⟩
  · intro r rest hok hp
    exact monitor_cons_terminal r rest hok hp
  · intro r rest hok hc
    rw [monitor_cons_completed r rest hok hc]

/-- Claim C1 witness: one pending poll at a concrete pending response. -/
theorem monitor_is_described_state_machine_witness :
    (monitor_query_status [statusResp "RUNNING"]).outcome =
      (monitor_query_status []).outcome ∧
    sleepDurations (monitor_query_status [statusResp "RUNNING"]).events =
      QUERY_STATUS_POLLING_WAIT_SECS :: sleepDurations (monitor_query_status []).events ∧
    (monitor_query_status [statusResp "RUNNING"]).calls =
      (monitor_query_status []).calls + 1 :=
  monitor_is_described_state_machine.1 (statusResp "RUNNING") [] (by decide) (by decide)

/-- Claim C4: a status string outside the six known values is terminal: the
poller returns `false` after a single check with no sleep, the same outcome
as a `FAILED` status. -/
theorem unknown_status_fails (r : Response) (rest : List Response)
    (hok : r.ok = true)
    (hn : statusOf r ∉ (["SUBMITTED", "IN_PROGRESS", "RUNNING",
      "COMPLETED", "FAILED", "CANCELLED"] : List String)) :
    (monitor_query_status (r :: rest)).outcome = MonitorOutcome.returned false ∧
    (monitor_query_status (r :: rest)).calls = 1 ∧
    sleepDurations (monitor_query_status (r :: rest)).events = [] ∧
    (monitor_query_status (r :: rest)).outcome =
      (monitor_query_status [statusResp "FAILED"]).outcome := by
  rw [monitor_cons_unknown r rest hok hn]
  refine ⟨rfl, rfl, rfl, ?_⟩
  show MonitorOutcome.returned false = _
  decide

/-- Claim C4 witness: the status string `WEIRD`. -/
theorem unknown_status_fails_witness :
    (monitor_query_status [statusResp "WEIRD"]).outcome =
      MonitorOutcome.returned false ∧
    (monitor_query_status [statusResp "WEIRD"]).calls = 1 ∧
    sleepDurations (monitor_query_status [statusResp "WEIRD"]).events = [] ∧
    (monitor_query_status [statusResp "WEIRD"]).outcome =
      (monitor_query_status [statusResp "FAILED"]).outcome :=
  unknown_status_fails (statusResp "WEIRD") [] (by decide) (by decide)

/-- Claim C5: an HTTP-level failure during polling raises the `RuntimeError`
built by `check_api_response` instead of being retried: after any number of
pending polls, a not-ok status response aborts with exactly one more status
request (nothing after it is consumed) and no sleep in the error branch —
the sleeps are exactly one ten-second sleep per preceding pending poll. -/
theorem polling_http_failure_aborts (pend : List Response) (r : Response)
    (rest : List Response)
    (hpend : ∀ p ∈ pend, p.ok = true ∧ isPendingStatus (statusOf p) = true)
    (hr : r.ok = false) :
    (monitor_query_status (pend ++ r :: rest)).outcome =
      MonitorOutcome.raised ("API request failed: " ++ r.reason) ∧
    (monitor_query_status (pend ++ r :: rest)).calls = pend.length + 1 ∧
    sleepDurations (monitor_query_status (pend ++ r :: rest)).events =
      List.replicate pend.length QUERY_STATUS_POLLING_WAIT_SECS := by
  induction pend with
  | nil =>
    rw [List.nil_append, monitor_cons_notok r rest hr]
    exact ⟨rfl, rfl, rfl⟩
  | cons p ps ih =>
    have hp := hpend p (by simp)
    rw [List.cons_append, monitor_cons_pending p _ hp.1 hp.2]
    obtain ⟨h1, h2, h3⟩ := ih (fun q hq => hpend q (by simp [hq]))
    refine ⟨h1, by simp [h2], ?_⟩
    simp [sleepDurations, h3, List.replicate_succ]

/-- Claim C5 witness: one pending poll, then a 500 response. -/
theorem polling_http_failure_aborts_witness :
    (monitor_query_status ([statusResp "RUNNING"] ++ errResp :: [])).outcome =
      MonitorOutcome.raised ("API request failed: " ++ errResp.reason) ∧
    (monitor_query_status ([statusResp "RUNNING"] ++ errResp :: [])).calls =
      [statusResp "RUNNING"].length + 1 ∧
    sleepDurations (monitor_query_status ([statusResp "RUNNING"] ++ errResp :: [])).events =
      List.replicate [statusResp "RUNNING"].length QUERY_STATUS_POLLING_WAIT_SECS :=
  polling_http_failure_aborts [statusResp "RUNNING"] errResp [] (by decide) (by decide)

/-- Claim C7: the polling loop is unbounded. The loop leaves its response
oracle exhausted exactly when every response it saw was ok with a pending
status; in particular, along any infinite all-pending status stream every
finite prefix of the run is still polling, with one status request and one
sleep per element and no attempt bound or timeout. -/
theorem polling_unbounded :
    (∀ resps, (monitor_query_status resps).outcome = MonitorOutcome.exhausted ↔
      ∀ r ∈ resps, r.ok = true ∧ isPendingStatus (statusOf r) = true) ∧
    (∀ f : Nat → Response,
      (∀ i, (f i).ok = true ∧ isPendingStatus (statusOf (f i)) = true) →
      ∀ n, (monitor_query_status ((List.range n).map f)).outcome =
          MonitorOutcome.exhausted ∧
        (monitor_query_status ((List.range n).map f)).calls = n ∧
        sleepDurations (monitor_query_status ((List.range n).map f)).events =
          List.replicate n QUERY_STATUS_POLLING_WAIT_SECS) := by
  refine ⟨monitor_exhausted_iff, ?_⟩
  intro f hf n
  have hall : ∀ r ∈ (List.range n).map f,
      r.ok = true ∧ isPendingStatus (statusOf r) = true := by
    intro r hr
    obtain ⟨i, _, rfl⟩ := List.mem_map.mp hr
    exact hf i
  refine ⟨?_, ?_, ?_⟩
  · rw [monitor_all_pending _ hall]
  · rw [monitor_all_pending _ hall]
    simp
  · rw [monitor_all_pending_sleeps _ hall]
    simp

/-- Claim C7 witness: three polls of a constant all-pending stream. -/
theorem polling_unbounded_witness :
    (monitor_query_status ((List.range 3).map (fun _ => statusResp "SUBMITTED"))).outcome =
      MonitorOutcome.exhausted ∧
    (monitor_query_status ((List.range 3).map (fun _ => statusResp "SUBMITTED"))).calls = 3 ∧
    sleepDurations (monitor_query_status
      ((List.range 3).map (fun _ => statusResp "SUBMITTED"))).events =
      List.replicate 3 QUERY_STATUS_POLLING_WAIT_SECS :=
  polling_unbounded.2 (fun _ => statusResp "SUBMITTED")
    (fun _ => ⟨rfl, rfl⟩) 3

/-- Claim C2 counterexample: the claim quantifies over all non-2xx responses,
but the code tests `response.ok`, which is status < 400. A 302 response from
the token endpoint is non-2xx, yet `get_auth_token` raises nothing — it
returns the token from the body — and the orchestrated sequence continues
to the submit step and beyond. -/
theorem non2xx_error_counterexample :
    ¬(200 ≤ redirectTokenResp.status_code ∧ redirectTokenResp.status_code < 300) ∧
    (get_auth_token redirectTokenResp).2 = Except.ok "tok" ∧
    (main redirectEnv).outcome = MainOutcome.finished ∧
    Action.submitCall ∈ (main redirectEnv).trace := by
  refine ⟨by decide, rfl, by decide, by decide⟩

/-- Claim C2 as amended: for every HTTP response with status code at least
400 (not-ok in the `requests` sense; 3xx responses count as success) from
the token, submit, or status endpoint, the corresponding operation raises
the `RuntimeError` carrying the HTTP reason phrase, and no subsequent step
of the orchestrated sequence executes. -/
theorem http_failure_aborts_sequence :
    (∀ r, 400 ≤ r.status_code →
      (get_auth_token r).2 = Except.error ("API request failed: " ++ r.reason)) ∧
    (∀ r, 400 ≤ r.status_code →
      (submit_query r).2 = Except.error ("API request failed: " ++ r.reason)) ∧
    (∀ r rest, 400 ≤ r.status_code →
      (monitor_query_status (r :: rest)).outcome =
        MonitorOutcome.raised ("API request failed: " ++ r.reason) ∧
      (monitor_query_status (r :: rest)).calls = 1) ∧
    (∀ env, 400 ≤ env.tokenResp.status_code →
      (main env).outcome =
        MainOutcome.raised ("API request failed: " ++ env.tokenResp.reason) ∧
      (main env).trace = [Action.tokenCall]) ∧
    (∀ env, env.tokenResp.ok = true → 400 ≤ env.submitResp.status_code →
      (main env).outcome =
        MainOutcome.raised ("API request failed: " ++ env.submitResp.reason) ∧
      (main env).trace = [Action.tokenCall, Action.submitCall]) ∧
    (∀ env e, env.tokenResp.ok = true → env.submitResp.ok = true →
      (monitor_query_status env.statusResps).outcome = MonitorOutcome.raised e →
      (main env).outcome = MainOutcome.raised e ∧
      Action.downloadUriCall ∉ (main env).trace ∧
      (∀ u, Action.rawGet u ∉ (main env).trace) ∧
      (∀ fn c, Action.fileWrite fn c ∉ (main env).trace)) := by
  refine ⟨?_, ?_, ?_, ?_, ?_, ?_⟩
  · intro r h
    exact get_auth_token_of_notok r ((ok_eq_false_iff r).mpr h)
  · intro r h
    exact submit_query_of_notok r ((ok_eq_false_iff r).mpr h)
  · intro r rest h
    rw [monitor_cons_notok r rest ((ok_eq_false_iff r).mpr h)]
    exact ⟨rfl, rfl⟩
  · intro env h
    have h1 := get_auth_token_of_notok env.tokenResp ((ok_eq_false_iff _).mpr h)
    simp [main, h1]
  · intro env htok h
    have h1 := get_auth_token_of_ok env.tokenResp htok
    have h2 := submit_query_of_notok env.submitResp ((ok_eq_false_iff _).mpr h)
    simp [main, h1, h2]
  · intro env e htok hsub hmon
    have h1 := get_auth_token_of_ok env.tokenResp htok
    have h2 := submit_query_of_ok env.submitResp hsub
    refine ⟨?_, ?_, fun u => ?_, fun fn c => ?_⟩ <;>
      simp [main, h1, h2, hmon, List.mem_replicate]

/-- Claim C2 witness (for the amended claim): a 500 token response aborts
after the token call alone. -/
theorem http_failure_aborts_sequence_witness :
    (main { happyEnv with tokenResp := errResp }).outcome =
      MainOutcome.raised ("API request failed: " ++ errResp.reason) ∧
    (main { happyEnv with tokenResp := errResp }).trace = [Action.tokenCall] := by
  have h := http_failure_aborts_sequence.2.2.2.1 { happyEnv with tokenResp := errResp }
    (by decide)
  exact h

/-- Claim C3: when the poller reaches a terminal `FAILED` or `CANCELLED`
status (after any number of pending polls), it returns `false`; and whenever
the poll outcome is `false`, the orchestrator performs no result-location
fetch, no signed-URI GET and no file write. -/
theorem failure_means_no_download :
    (∀ pend r rest,
      (∀ p ∈ pend, p.ok = true ∧ isPendingStatus (statusOf p) = true) →
      r.ok = true → (statusOf r = "FAILED" ∨ statusOf r = "CANCELLED") →
      (monitor_query_status (pend ++ r :: rest)).outcome =
        MonitorOutcome.returned false) ∧
    (∀ env, (monitor_query_status env.statusResps).outcome =
        MonitorOutcome.returned false →
      Action.downloadUriCall ∉ (main env).trace ∧
      (∀ u, Action.rawGet u ∉ (main env).trace) ∧
      (∀ fn c, Action.fileWrite fn c ∉ (main env).trace)) := by
  constructor
  · intro pend r rest hpend hok hc
    induction pend with
    | nil =>
      rw [List.nil_append, monitor_cons_failed r rest hok hc]
    | cons p ps ih =>
      have hp := hpend p (by simp)
      rw [List.cons_append, monitor_cons_pending p _ hp.1 hp.2]
      exact ih (fun q hq => hpend q (by simp [hq]))
  · intro env hmon
    rcases h1 : (get_auth_token env.tokenResp).2 with e | t
    · refine ⟨?_, fun u => ?_, fun fn c => ?_⟩ <;> simp [main, h1]
    · rcases h2 : (submit_query env.submitResp).2 with e | q
      · refine ⟨?_, fun u => ?_, fun fn c => ?_⟩ <;> simp [main, h1, h2]
      · refine ⟨?_, fun u => ?_, fun fn c => ?_⟩ <;>
          simp [main, h1, h2, hmon, List.mem_replicate]

/-- Claim C3 witness: statuses `SUBMITTED` then `FAILED`, in isolation and
inside a full run. -/
theorem failure_means_no_download_witness :
    (monitor_query_status ([statusResp "SUBMITTED"] ++ statusResp "FAILED" :: [])).outcome =
      MonitorOutcome.returned false ∧
    Action.downloadUriCall ∉ (main failedEnv).trace :=
  ⟨failure_means_no_download.1 [statusResp "SUBMITTED"] (statusResp "FAILED") []
      (by decide) (by decide) (Or.inl (by decide)),
    (failure_means_no_download.2 failedEnv (by decide)).1⟩

/-- Claim C6: on a 2xx (here: ok) response whose JSON body lacks the
expected field, the extracting operation returns the empty string instead of
failing: `get_auth_token` without `access_token`, `submit_query` without
`queryId`, and `download_results` without `uri` all return `""`. -/
theorem missing_field_yields_empty_string :
    (∀ r, r.ok = true → r.body.lookup "access_token" = none →
      (get_auth_token r).2 = Except.ok "") ∧
    (∀ r, r.ok = true → r.body.lookup "queryId" = none →
      (submit_query r).2 = Except.ok "") ∧
    (∀ r, r.ok = true → r.body.lookup "uri" = none →
      (download_results r).2 = Except.ok "") := by
  refine ⟨fun r hok hm => ?_, fun r hok hm => ?_, fun r hok hm => ?_⟩
  · rw [get_auth_token_of_ok r hok]
    simp [jsonGet, hm]
  · rw [submit_query_of_ok r hok]
    simp [jsonGet, hm]
  · rw [download_results_of_ok r hok]
    simp [jsonGet, hm]

/-- Claim C6 witness: a 200 response with an empty body, at all three
extractors. -/
theorem missing_field_yields_empty_string_witness :
    (get_auth_token emptyBodyResp).2 = Except.ok "" ∧
    (submit_query emptyBodyResp).2 = Except.ok "" ∧
    (download_results emptyBodyResp).2 = Except.ok "" :=
  ⟨missing_field_yields_empty_string.1 emptyBodyResp (by decide) rfl,
    missing_field_yields_empty_string.2.1 emptyBodyResp (by decide) rfl,
    missing_field_yields_empty_string.2.2 emptyBodyResp (by decide) rfl⟩

/-- Claim C8: in a successful end-to-end run (token and submit succeed, the
poll reports success, the result-location fetch succeeds with signed URI
`uri`), the downloader performs an unauthenticated GET of `uri` (the
`rawGet` action carries no headers, as line 157 passes none) and writes
exactly the fetched response bytes, unmodified, to the file named
`gardin_query_api_results_<unix-seconds-at-save-time>.csv`. -/
theorem successful_run_downloads (env : Env) (uri : String)
    (htok : env.tokenResp.ok = true)
    (hsub : env.submitResp.ok = true)
    (hmon : (monitor_query_status env.statusResps).outcome =
      MonitorOutcome.returned true)
    (hdl : env.downloadResp.ok = true)
    (huri : jsonGet env.downloadResp.body "uri" "" = uri) :
    (main env).outcome = MainOutcome.finished ∧
    (main env).trace =
      Action.tokenCall :: Action.submitCall ::
        (List.replicate (monitor_query_status env.statusResps).calls
          Action.statusCall ++
          [Action.downloadUriCall, Action.rawGet uri,
            Action.fileWrite
              (CSV_DOWNLOAD_PATH_PREFIX ++ toString env.saveTime ++ ".csv")
              env.csvContent]) := by
  have h1 := get_auth_token_of_ok env.tokenResp htok
  have h2 := submit_query_of_ok env.submitResp hsub
  have h3 := download_results_of_ok env.downloadResp hdl
  rw [huri] at h3
  constructor <;> simp [main, h1, h2, h3, hmon, save_results]

/-- Claim C8 witness: the spec's end-to-end scenario, with
`CSV_DOWNLOAD_PATH_PREFIX = "gardin_query_api_results_"` and save time
1700000000. -/
theorem successful_run_downloads_witness :
    (main happyEnv).outcome = MainOutcome.finished ∧
    (main happyEnv).trace =
      Action.tokenCall :: Action.submitCall ::
        (List.replicate (monitor_query_status happyEnv.statusResps).calls
          Action.statusCall ++
          [Action.downloadUriCall, Action.rawGet "https://signed/abc123.csv",
            Action.fileWrite
              (CSV_DOWNLOAD_PATH_PREFIX ++ toString happyEnv.saveTime ++ ".csv")
              happyEnv.csvContent]) :=
  successful_run_downloads happyEnv "https://signed/abc123.csv"
    (by decide) (by decide) (by decide) (by decide) (by decide)

/-- Claim C9: for every client id and client secret (as UTF-8 byte
sequences), base64-decoding the credential part of the Basic-Auth header
built on lines 59-64 — the part after the 6-character prefix `Basic ` —
yields back exactly the bytes of `<client_id>:<client_secret>`. -/
theorem basic_auth_header_roundtrip (client_id client_secret : List Nat)
    (h1 : ∀ b ∈ client_id, b < 256) (h2 : ∀ b ∈ client_secret, b < 256) :
    base64DecodeBytes ((basicAuthHeader client_id client_secret).drop 6) =
      credentialsBytes client_id client_secret := by
  have hall : ∀ b ∈ credentialsBytes client_id client_secret, b < 256 := by
    intro b hb
    simp only [credentialsBytes, List.mem_append, List.mem_cons] at hb
    rcases hb with h | h | h
    · exact h1 b h
    · omega
    · exact h2 b h
  have hlen : (("Basic ").toList).length = 6 := rfl
  rw [basicAuthHeader, ← hlen, List.drop_left]
  exact base64_roundtrip _ hall

/-- Claim C9 witness: client id `a` (byte 97) and secret `b` (byte 98). -/
theorem basic_auth_header_roundtrip_witness :
    base64DecodeBytes ((basicAuthHeader [97] [98]).drop 6) =
      credentialsBytes [97] [98] :=
  basic_auth_header_roundtrip [97] [98] (by decide) (by decide)

/-- Claim C10: when an ok status response lacks the `status` field, the
poller substitutes the sentinel `NO_STATUS_RETURNED` — not the empty
string — which lands in the unknown-status branch: the poller returns
`false` after that single check, with no sleep, printing the unknown-status
line; a missing status field is terminal, never pending. -/
theorem missing_status_field_is_terminal (r : Response) (rest : List Response)
    (hok : r.ok = true) (hmiss : r.body.lookup "status" = none) :
    statusOf r = "NO_STATUS_RETURNED" ∧
    statusOf r ≠ "" ∧
    isPendingStatus (statusOf r) = false ∧
    (monitor_query_status (r :: rest)).outcome = MonitorOutcome.returned false ∧
    (monitor_query_status (r :: rest)).calls = 1 ∧
    sleepDurations (monitor_query_status (r :: rest)).events = [] ∧
    Event.print ("Error:Unknown status -NO_STATUS_RETURNED") ∈
      (monitor_query_status (r :: rest)).events := by
  have hs : statusOf r = "NO_STATUS_RETURNED" := by
    simp [statusOf, jsonGet, hmiss]
  have hn : statusOf r ∉ (["SUBMITTED", "IN_PROGRESS", "RUNNING",
      "COMPLETED", "FAILED", "CANCELLED"] : List String) := by
    simp [hs]
  rw [monitor_cons_unknown r rest hok hn]
  refine ⟨hs, by simp [hs], by simp [isPendingStatus, hs], rfl, rfl, rfl, ?_⟩
  simp [hs]

/-- Claim C10 witness: a 200 response with an empty JSON body. -/
theorem missing_status_field_is_terminal_witness :
    statusOf emptyBodyResp = "NO_STATUS_RETURNED" ∧
    statusOf emptyBodyResp ≠ "" ∧
    isPendingStatus (statusOf emptyBodyResp) = false ∧
    (monitor_query_status [emptyBodyResp]).outcome = MonitorOutcome.returned false ∧
    (monitor_query_status [emptyBodyResp]).calls = 1 ∧
    sleepDurations (monitor_query_status [emptyBodyResp]).events = [] ∧
    Event.print ("Error:Unknown status -NO_STATUS_RETURNED") ∈
      (monitor_query_status [emptyBodyResp]).events :=
  missing_status_field_is_terminal emptyBodyResp [] (by decide) rfl

end GardinApi
